import Mathlib

/-!
Verification of the New Tab Chrome extension against its specification.

The development shallowly embeds the relevant parts of the repository:
`scripts/background.js` (BackgroundEngine), `scripts/clock.js`
(ClockManager), `scripts/app.js` (window.utils), `scripts/pinned-apps.js`
(PinnedAppsManager), the Settings Manager (SettingsManager) and the Stats
Tracker (StatsTracker).  JavaScript strings are Lean `String`s,
non-negative integers are `Nat` (indices and counters never go negative in
the embedded code), DOM side effects are modelled as returned values, and
promise rejections are modelled with `Except String`.
-/

namespace NewTab

/-! ## Background engine (`scripts/background.js`) -/

/-- `this.settings.uploadSettings` of `BackgroundEngine` (background.js
lines 11-16): the uploaded-image pool, its cycling policy, ordering policy
and cursor. -/
structure UploadSettings where
  images : List String
  cycle : String
  order : String
  currentIndex : Nat
deriving DecidableEq, Repr

/-- `this.settings.colorSettings` (background.js lines 17-19). -/
structure ColorSettings where
  color : String
deriving DecidableEq, Repr

/-- `this.settings.gradientSettings` (background.js lines 20-24). -/
structure GradientSettings where
  type : String
  color1 : String
  color2 : String
deriving DecidableEq, Repr

/-- `this.settings.apiSettings` (background.js lines 25-31).  The
constructor does not initialise an `order` field; reading the absent
property yields `undefined`, which compares unequal to `"random"`; we model
the absent field as the string `""`. -/
structure ApiSettings where
  source : String
  apiKey : String
  query : String
  images : List String
  currentIndex : Nat
  order : String
deriving DecidableEq, Repr

/-- `this.settings` of `BackgroundEngine` (background.js lines 9-32). -/
structure BackgroundSettings where
  backgroundType : String
  uploadSettings : UploadSettings
  colorSettings : ColorSettings
  gradientSettings : GradientSettings
  apiSettings : ApiSettings
deriving DecidableEq, Repr

/-- The visible state of the `background-container` element after one of
the `apply*Background` methods ran.  `noChange` records the branch of
`applyApiBackground` that returns without touching the DOM (pool still
empty after a successful fetch). -/
inductive Render where
  | color (c : String)
  | gradient (css : String)
  | image (url : String)
  | noChange
deriving DecidableEq, Repr

/-- `BackgroundEngine.applyColorBackground` (background.js lines 121-125):
paints the container with the configured solid color. -/
def applyColorBackground (s : BackgroundSettings) : Render :=
  Render.color s.colorSettings.color

/-- `BackgroundEngine.applyGradientBackground` (background.js lines
130-142). -/
def applyGradientBackground (s : BackgroundSettings) : Render :=
  let g := s.gradientSettings
  if g.type = "linear" then
    Render.gradient ("linear-gradient(135deg, " ++ g.color1 ++ ", " ++ g.color2 ++ ")")
  else
    Render.gradient ("radial-gradient(circle, " ++ g.color1 ++ ", " ++ g.color2 ++ ")")

/-- `BackgroundEngine.setBackgroundImage` (background.js lines 222-241):
the image is preloaded off-DOM; on successful decode the promise resolves
and the image becomes the background, on decode failure the promise is
rejected with `Failed to load image`.  `decode url = true` models a URL
whose off-DOM preload succeeds. -/
def setBackgroundImage (decode : String → Bool) (imageUrl : String) : Except String Render :=
  if decode imageUrl then Except.ok (Render.image imageUrl)
  else Except.error "Failed to load image"

/-- The sequential branch of the selection in
`BackgroundEngine.applyUploadBackground` (background.js lines 107-108):
`imageIndex = uploadSettings.currentIndex;
 uploadSettings.currentIndex = (uploadSettings.currentIndex + 1) % uploadSettings.images.length`.
Returns the selected index together with the updated settings. -/
def seqSelect (u : UploadSettings) : Nat × UploadSettings :=
  (u.currentIndex, { u with currentIndex := (u.currentIndex + 1) % u.images.length })

/-- `BackgroundEngine.applyUploadBackground` (background.js lines 94-116).
`rnd` stands for the value `Math.floor(Math.random() * length)` reduced
into range with `% length`; the sequential branch goes through
`seqSelect`.  The promise rejection from `setBackgroundImage` is not
caught anywhere in this method, so it propagates to the caller as an
`Except.error`. -/
def applyUploadBackground (decode : String → Bool) (rnd : Nat) (s : BackgroundSettings) :
    Except String (Render × BackgroundSettings) :=
  let u := s.uploadSettings
  if u.images.length = 0 then
    Except.ok (applyColorBackground s, s)
  else if u.order = "random" then
    let imageIndex := rnd % u.images.length
    (setBackgroundImage decode (u.images.getD imageIndex "")).map (fun r => (r, s))
  else
    let sel := seqSelect u
    (setBackgroundImage decode (u.images.getD sel.1 "")).map
      (fun r => (r, { s with uploadSettings := sel.2 }))

/-- The assignment performed by `BackgroundEngine.fetchApiImages`
(background.js lines 187-217): on a successful network fetch the pool is
replaced by the fetched URLs and the cursor reset to 0, on a failed fetch
an exception is thrown.  The network interaction itself is the oracle
`fetchResult`. -/
def fetchApiImages (fetchResult : Except String (List String)) (a : ApiSettings) :
    Except String ApiSettings :=
  match fetchResult with
  | Except.ok imgs => Except.ok { a with images := imgs, currentIndex := 0 }
  | Except.error e => Except.error e

/-- The `try` block of `BackgroundEngine.applyApiBackground`
(background.js lines 156-177). -/
def applyApiBackgroundTry (decode : String → Bool)
    (fetchResult : Except String (List String)) (rnd : Nat) (s : BackgroundSettings) :
    Except String (Render × BackgroundSettings) :=
  let a0 := s.apiSettings
  match (if a0.images.length = 0 then fetchApiImages fetchResult a0 else Except.ok a0) with
  | Except.error e => Except.error e
  | Except.ok a =>
    if a.images.length > 0 then
      if a.order = "random" then
        let imageIndex := rnd % a.images.length
        (setBackgroundImage decode (a.images.getD imageIndex "")).map
          (fun r => (r, { s with apiSettings := a }))
      else
        let imageIndex := a.currentIndex
        let a1 := { a with currentIndex := (a.currentIndex + 1) % a.images.length }
        (setBackgroundImage decode (a.images.getD imageIndex "")).map
          (fun r => (r, { s with apiSettings := a1 }))
    else
      Except.ok (Render.noChange, s)

/-- `BackgroundEngine.applyApiBackground` (background.js lines 147-182):
without an API key it falls back to the solid color immediately; the body
is wrapped in `try`/`catch` and every exception is turned into the
solid-color fallback, so this method never throws. -/
def applyApiBackground (decode : String → Bool)
    (fetchResult : Except String (List String)) (rnd : Nat) (s : BackgroundSettings) :
    Render × BackgroundSettings :=
  if s.apiSettings.apiKey = "" then
    (applyColorBackground s, s)
  else
    match applyApiBackgroundTry decode fetchResult rnd s with
    | Except.ok x => x
    | Except.error _ => (applyColorBackground s, s)

/-- `BackgroundEngine.applyBackground` (background.js lines 72-89):
dispatch on `settings.backgroundType`.  The `upload` branch awaits
`applyUploadBackground` without a handler, so its rejection escapes to the
caller of `applyBackground`. -/
def applyBackground (decode : String → Bool)
    (fetchResult : Except String (List String)) (rnd : Nat) (s : BackgroundSettings) :
    Except String (Render × BackgroundSettings) :=
  match s.backgroundType with
  | "upload" => applyUploadBackground decode rnd s
  | "color" => Except.ok (applyColorBackground s, s)
  | "gradient" => Except.ok (applyGradientBackground s, s)
  | "api" => Except.ok (applyApiBackground decode fetchResult rnd s)
  | _ => Except.ok (applyColorBackground s, s)

/-- `BackgroundEngine.removeUploadedImage` (background.js lines 268-279):
splice out the image at `index` when the index is in range, then reset the
cursor to 0 when it no longer falls inside the shrunk pool. -/
def removeUploadedImage (s : BackgroundSettings) (index : Int) : BackgroundSettings :=
  if 0 ≤ index ∧ index < (s.uploadSettings.images.length : Int) then
    let images1 := s.uploadSettings.images.eraseIdx index.toNat
    let cur1 :=
      if images1.length ≤ s.uploadSettings.currentIndex then 0
      else s.uploadSettings.currentIndex
    { s with uploadSettings := { s.uploadSettings with images := images1, currentIndex := cur1 } }
  else s

/-- Iterated sequential selection: the upload settings after `k` calls of
the sequential branch of `applyUploadBackground`. -/
def seqRun (u : UploadSettings) : Nat → UploadSettings
  | 0 => u
  | k + 1 => (seqSelect (seqRun u k)).2

theorem seqRun_images (u : UploadSettings) (k : Nat) : (seqRun u k).images = u.images := by
  induction k with
  | zero => rfl
  | succ k ih => simpa [seqRun, seqSelect] using ih

theorem seqRun_currentIndex (imgs : List String) (cyc ord : String) (k : Nat) :
    (seqRun ⟨imgs, cyc, ord, 0⟩ k).currentIndex = k % imgs.length := by
  induction k with
  | zero => simp [seqRun]
  | succ k ih =>
    have himg := seqRun_images ⟨imgs, cyc, ord, 0⟩ k
    simp only [seqRun, seqSelect, himg, ih]
    rw [Nat.mod_add_mod]

/-- C4: on a non-empty upload pool with order `sequential` starting at
`currentIndex 0`, the k-th selection call returns index `(k-1) % N` and
leaves `currentIndex = k % N` (so N consecutive calls visit each index
exactly once before the cycle repeats); any selection on a non-empty pool
leaves `currentIndex` strictly below the pool length; a removal that
leaves the pool non-empty does so as well (from any state satisfying the
cursor invariant), and a removal that shrinks the pool to at most the old
cursor resets the cursor to 0. -/
theorem sequential_selection_cycle :
    (∀ (imgs : List String) (cyc ord : String) (k : Nat), 0 < imgs.length → 1 ≤ k →
      (seqSelect (seqRun ⟨imgs, cyc, ord, 0⟩ (k - 1))).1 = (k - 1) % imgs.length ∧
      (seqRun ⟨imgs, cyc, ord, 0⟩ k).currentIndex = k % imgs.length) ∧
    (∀ u : UploadSettings, 0 < u.images.length →
      (seqSelect u).2.currentIndex < u.images.length) ∧
    (∀ (s : BackgroundSettings) (idx : Int),
      (s.uploadSettings.currentIndex < s.uploadSettings.images.length ∨
        s.uploadSettings.images.length = 0) →
      0 < (removeUploadedImage s idx).uploadSettings.images.length →
      (removeUploadedImage s idx).uploadSettings.currentIndex <
        (removeUploadedImage s idx).uploadSettings.images.length) ∧
    (∀ (s : BackgroundSettings) (idx : Int),
      0 ≤ idx → idx < (s.uploadSettings.images.length : Int) →
      s.uploadSettings.images.length - 1 ≤ s.uploadSettings.currentIndex →
      (removeUploadedImage s idx).uploadSettings.currentIndex = 0) := by
  refine ⟨?_, ?_, ?_, ?_⟩
  · intro imgs cyc ord k _ _
    refine ⟨?_, seqRun_currentIndex imgs cyc ord k⟩
    simp [seqSelect, seqRun_currentIndex imgs cyc ord (k - 1)]
  · intro u hu
    exact Nat.mod_lt _ hu
  · intro s idx hinv hpos
    by_cases hidx : 0 ≤ idx ∧ idx < (s.uploadSettings.images.length : Int)
    · simp only [removeUploadedImage, if_pos hidx] at hpos ⊢
      by_cases hcur :
          (s.uploadSettings.images.eraseIdx idx.toNat).length ≤ s.uploadSettings.currentIndex
      · simpa [hcur] using hpos
      · simpa [hcur] using Nat.lt_of_not_le hcur
    · simp only [removeUploadedImage, if_neg hidx] at hpos ⊢
      rcases hinv with h | h
      · exact h
      · omega
  · intro s idx h0 hlt hshrink
    have hidx : 0 ≤ idx ∧ idx < (s.uploadSettings.images.length : Int) := ⟨h0, hlt⟩
    have htn : idx.toNat < s.uploadSettings.images.length := by omega
    have herase : (s.uploadSettings.images.eraseIdx idx.toNat).length + 1 =
        s.uploadSettings.images.length := List.length_eraseIdx_add_one htn
    have hcur : (s.uploadSettings.images.eraseIdx idx.toNat).length ≤
        s.uploadSettings.currentIndex := by omega
    simp [removeUploadedImage, if_pos hidx, hcur]

theorem sequential_selection_cycle_witness :
    (0 < (["a", "b", "c"] : List String).length ∧ 1 ≤ 4) ∧
    ((seqSelect (seqRun ⟨["a", "b", "c"], "refresh", "sequential", 0⟩ (4 - 1))).1 =
        (4 - 1) % (["a", "b", "c"] : List String).length ∧
      (seqRun ⟨["a", "b", "c"], "refresh", "sequential", 0⟩ 4).currentIndex =
        4 % (["a", "b", "c"] : List String).length) :=
  ⟨⟨by decide, by decide⟩,
    sequential_selection_cycle.1 ["a", "b", "c"] "refresh" "sequential" 4
      (by decide) (by decide)⟩

/-- A concrete upload configuration whose single pooled image fails to
decode. -/
def failingUploadConfig : BackgroundSettings :=
  { backgroundType := "upload"
  , uploadSettings :=
      { images := ["data:image/png;base64,broken"], cycle := "refresh"
      , order := "sequential", currentIndex := 0 }
  , colorSettings := { color := "#1a1a1a" }
  , gradientSettings := { type := "linear", color1 := "#667eea", color2 := "#764ba2" }
  , apiSettings :=
      { source := "unsplash", apiKey := "", query := "nature"
      , images := [], currentIndex := 0, order := "" } }

/-- C2 counterexample: in upload mode a failing preload is not caught —
`applyBackground` propagates the rejection to its caller instead of
falling back to the solid color, refuting the claim that the failure never
escapes and that the caller falls back to color. -/
theorem upload_preload_failure_escapes :
    applyBackground (fun _ => false) (Except.ok []) 0 failingUploadConfig =
      Except.error "Failed to load image" ∧
    applyBackground (fun _ => false) (Except.ok []) 0 failingUploadConfig ≠
      Except.ok (applyColorBackground failingUploadConfig, failingUploadConfig) := by
  have h : applyBackground (fun _ => false) (Except.ok []) 0 failingUploadConfig =
      Except.error "Failed to load image" := rfl
  exact ⟨h, by rw [h]; exact fun hc => Except.noConfusion hc⟩

/-- C2 amended: when the selected image's off-DOM preload fails to decode,
api mode catches the failure and falls back to solid-color rendering with
no escaping exception, but upload mode lets the `Failed to load image`
rejection propagate uncaught out of `applyBackground` and performs no
color fallback. -/
theorem preload_failure_behavior :
    (∀ (s : BackgroundSettings) (fetchResult : Except String (List String)) (rnd : Nat),
      s.backgroundType = "upload" → s.uploadSettings.images ≠ [] →
      applyBackground (fun _ => false) fetchResult rnd s =
        Except.error "Failed to load image") ∧
    (∀ (s : BackgroundSettings) (fetchResult : Except String (List String)) (rnd : Nat),
      s.backgroundType = "api" → s.apiSettings.apiKey ≠ "" → s.apiSettings.images ≠ [] →
      applyBackground (fun _ => false) fetchResult rnd s =
        Except.ok (applyColorBackground s, s)) := by
  constructor
  · intro s fetchResult rnd htype himgs
    have hlen : s.uploadSettings.images.length ≠ 0 := by
      simpa using List.length_pos.mpr himgs |>.ne'
    by_cases hord : s.uploadSettings.order = "random" <;>
      simp [applyBackground, htype, applyUploadBackground, hlen, hord,
        setBackgroundImage, Except.map, seqSelect]
  · intro s fetchResult rnd htype hkey himgs
    have hlen : s.apiSettings.images.length ≠ 0 := by
      simpa using List.length_pos.mpr himgs |>.ne'
    by_cases hord : s.apiSettings.order = "random" <;>
      simp [applyBackground, htype, applyApiBackground, hkey, applyApiBackgroundTry,
        hlen, Nat.pos_of_ne_zero hlen, hord, setBackgroundImage, Except.map]

theorem preload_failure_behavior_witness :
    (failingUploadConfig.backgroundType = "upload" ∧
      failingUploadConfig.uploadSettings.images ≠ []) ∧
    applyBackground (fun _ => false) (Except.ok []) 0 failingUploadConfig =
      Except.error "Failed to load image" :=
  ⟨⟨by decide, by decide⟩,
    preload_failure_behavior.1 failingUploadConfig (Except.ok []) 0
      (by decide) (by decide)⟩

/-- C9: whenever the selected mode's pool is empty — upload mode with zero
images, api mode with no API key, or api mode whose pool is empty and
whose fetch fails — background selection falls back to solid-color
rendering and returns normally (never throws). -/
theorem empty_pool_color_fallback :
    (∀ (s : BackgroundSettings) (decode : String → Bool)
        (fetchResult : Except String (List String)) (rnd : Nat),
      s.backgroundType = "upload" → s.uploadSettings.images = [] →
      applyBackground decode fetchResult rnd s =
        Except.ok (applyColorBackground s, s)) ∧
    (∀ (s : BackgroundSettings) (decode : String → Bool)
        (fetchResult : Except String (List String)) (rnd : Nat),
      s.backgroundType = "api" → s.apiSettings.apiKey = "" →
      applyBackground decode fetchResult rnd s =
        Except.ok (applyColorBackground s, s)) ∧
    (∀ (s : BackgroundSettings) (decode : String → Bool) (e : String) (rnd : Nat),
      s.backgroundType = "api" → s.apiSettings.apiKey ≠ "" →
      s.apiSettings.images = [] →
      applyBackground decode (Except.error e) rnd s =
        Except.ok (applyColorBackground s, s)) := by
  refine ⟨?_, ?_, ?_⟩
  · intro s decode fetchResult rnd htype himgs
    simp [applyBackground, htype, applyUploadBackground, himgs]
  · intro s decode fetchResult rnd htype hkey
    simp [applyBackground, htype, applyApiBackground, hkey]
  · intro s decode e rnd htype hkey himgs
    simp [applyBackground, htype, applyApiBackground, hkey, applyApiBackgroundTry,
      himgs, fetchApiImages]

/-- An api-mode configuration with a key but an empty pool. -/
def emptyApiConfig : BackgroundSettings :=
  { backgroundType := "api"
  , uploadSettings :=
      { images := [], cycle := "refresh", order := "random", currentIndex := 0 }
  , colorSettings := { color := "#1a1a1a" }
  , gradientSettings := { type := "linear", color1 := "#667eea", color2 := "#764ba2" }
  , apiSettings :=
      { source := "unsplash", apiKey := "k3y", query := "nature"
      , images := [], currentIndex := 0, order := "" } }

theorem empty_pool_color_fallback_witness :
    (emptyApiConfig.backgroundType = "api" ∧ emptyApiConfig.apiSettings.apiKey ≠ "" ∧
      emptyApiConfig.apiSettings.images = []) ∧
    applyBackground (fun _ => true) (Except.error "API request failed: 500") 0 emptyApiConfig =
      Except.ok (applyColorBackground emptyApiConfig, emptyApiConfig) :=
  ⟨⟨by decide, by decide, by decide⟩,
    empty_pool_color_fallback.2.2 emptyApiConfig (fun _ => true) "API request failed: 500" 0
      (by decide) (by decide) (by decide)⟩

/-! ## Clock (`scripts/clock.js`) and the global utilities (`scripts/app.js`) -/

/-- JavaScript's `String.prototype.padStart(2, '0')`. -/
def padStart2 (s : String) : String :=
  String.mk (List.replicate (2 - s.length) '0') ++ s

/-- `ClockManager.padZero` (clock.js lines 142-144):
`num.toString().padStart(2, '0')`. -/
def padZero (num : Nat) : String :=
  padStart2 (toString num)

/-- The time string computed by `ClockManager.updateClock` (clock.js lines
93-115) from the wall-clock components and the settings flags
`use24HourFormat` and `showSeconds`. -/
def updateClockTime (use24HourFormat showSeconds : Bool) (hours minutes seconds : Nat) :
    String :=
  let timeString :=
    if use24HourFormat then
      padZero hours ++ ":" ++ padZero minutes
    else
      let ampm := if 12 ≤ hours then "PM" else "AM"
      let hours12 := hours % 12
      let hours12 := if hours12 = 0 then 12 else hours12
      padZero hours12 ++ ":" ++ padZero minutes ++ " " ++ ampm
  if showSeconds then timeString ++ (":" ++ padZero seconds) else timeString

/-- `window.utils.formatTime` (app.js lines 349-362).  The source mutates
`formattedHours` and `period` inside `if (!format24)`; here both are
expressed as conditionals with the same values (`hours % 12 || 12` is
`hours % 12` unless that is 0, in which case 12). -/
def formatTime (hours minutes seconds : Nat) (format24 showSeconds : Bool) : String :=
  let period := if format24 then "" else if 12 ≤ hours then " PM" else " AM"
  let formattedHours :=
    if format24 then hours else if hours % 12 = 0 then 12 else hours % 12
  let timeString := padStart2 (toString formattedHours) ++ ":" ++ padStart2 (toString minutes)
  let secondsString := if showSeconds then ":" ++ padStart2 (toString seconds) else ""
  timeString ++ secondsString ++ period

/-- C8: clock formatting — hour 0 in 12-hour format renders as
`12:MM AM`, hour 13 in 12-hour format as `01:MM PM`, hour 13 in 24-hour
format as `13:MM`, and the minutes/seconds component is always zero-padded
to two digits. -/
theorem clock_formatting_cases :
    (∀ m s : Nat,
      updateClockTime false false 0 m s = "12:" ++ padZero m ++ " AM" ∧
      updateClockTime false false 13 m s = "01:" ++ padZero m ++ " PM" ∧
      updateClockTime true false 13 m s = "13:" ++ padZero m) ∧
    (∀ m : Nat, m < 60 → (padZero m).length = 2) := by
  constructor
  · intro m s
    refine ⟨?_, ?_, ?_⟩
    · show "12" ++ ":" ++ padZero m ++ " " ++ "AM" = "12:" ++ padZero m ++ " AM"
      rw [String.append_assoc]; rfl
    · show "01" ++ ":" ++ padZero m ++ " " ++ "PM" = "01:" ++ padZero m ++ " PM"
      rw [String.append_assoc]; rfl
    · rfl
  · decide

theorem clock_formatting_cases_witness :
    (7 : Nat) < 60 ∧ (padZero 7).length = 2 :=
  ⟨by decide, clock_formatting_cases.2 7 (by decide)⟩

/-- C10 counterexample: in 12-hour mode with seconds shown, the global
utility places `:SS` before the AM/PM suffix while the clock module
appends it after the suffix, so the two formatters disagree at
13:05:07. -/
theorem formatTime_clock_disagree :
    formatTime 13 5 7 false true = "01:05:07 PM" ∧
    updateClockTime false true 13 5 7 = "01:05 PM:07" ∧
    formatTime 13 5 7 false true ≠ updateClockTime false true 13 5 7 := by
  refine ⟨rfl, rfl, ?_⟩
  intro h
  have : ("01:05:07 PM" : String) = "01:05 PM:07" := h
  simp at this

/-- C10 amended: `utils.formatTime` and `ClockManager.updateClock` produce
the same string whenever seconds are hidden or the 24-hour format is
selected; in 12-hour mode with seconds shown they differ in where the
seconds component sits relative to the AM/PM suffix. -/
theorem formatTime_matches_clock :
    ∀ (h m s : Nat) (format24 showSeconds : Bool),
      showSeconds = false ∨ format24 = true →
      formatTime h m s format24 showSeconds = updateClockTime format24 showSeconds h m s := by
  intro h m s format24 showSeconds hyp
  rcases hyp with hss | h24
  · subst hss
    cases format24
    · by_cases hge : 12 ≤ h <;>
        simp [formatTime, updateClockTime, padZero, hge, String.append_empty,
          String.append_assoc]
    · simp [formatTime, updateClockTime, padZero, String.append_empty]
  · subst h24
    cases showSeconds <;>
      simp [formatTime, updateClockTime, padZero, String.append_empty]

theorem formatTime_matches_clock_witness :
    ((false : Bool) = false ∨ (false : Bool) = true) ∧
    formatTime 13 5 7 false false = updateClockTime false false 13 5 7 :=
  ⟨Or.inl rfl, formatTime_matches_clock 13 5 7 false false (Or.inl rfl)⟩

/-! ## Settings manager (part_001: `SettingsManager`)

JavaScript objects that travel through `JSON.parse`, the spread operator
and `chrome.storage` are modelled as association lists of string keys and
JSON-like values, read through `List.lookup` (the first binding for a key
wins). -/

/-- A JSON-like settings value. -/
inductive SVal where
  | str (s : String)
  | boolv (b : Bool)
  | num (q : ℚ)
  | obj (fields : List (String × SVal))
  | arr (elems : List SVal)

/-- A JavaScript object: association list read through `List.lookup`. -/
abbrev JsObj := List (String × SVal)

/-- JavaScript object spread `{ ...a, ...b }`: the result binds a key to
b's value when b has the key and to a's value otherwise.  With lookup
resolving to the first binding, this is `b ++ a`. -/
def jsSpread (a b : JsObj) : JsObj := b ++ a

/-- The hardcoded defaults assigned to `this.settings` in the
`SettingsManager` constructor (part_001 lines 18-61). -/
def defaultSettings : JsObj :=
  [ ("clock", SVal.obj
      [ ("format", SVal.str "12"), ("showSeconds", SVal.boolv true)
      , ("showDate", SVal.boolv true), ("hidden", SVal.boolv false) ])
  , ("apps", SVal.obj
      [ ("showNames", SVal.boolv true), ("padding", SVal.num 10)
      , ("transparency", SVal.num 0.9), ("gridColumns", SVal.num 10)
      , ("gridRows", SVal.num 2) ])
  , ("background", SVal.obj
      [ ("type", SVal.str "upload")
      , ("uploadSettings", SVal.obj
          [ ("images", SVal.arr []), ("cycle", SVal.str "refresh")
          , ("order", SVal.str "random") ])
      , ("colorSettings", SVal.obj [("color", SVal.str "#1a1a1a")])
      , ("gradientSettings", SVal.obj
          [ ("type", SVal.str "linear"), ("color1", SVal.str "#667eea")
          , ("color2", SVal.str "#764ba2") ])
      , ("apiSettings", SVal.obj
          [ ("source", SVal.str "unsplash"), ("apiKey", SVal.str "")
          , ("query", SVal.str "nature"), ("cycle", SVal.str "refresh") ]) ])
  , ("stats", SVal.obj
      [ ("enabled", SVal.boolv true), ("showUsageTime", SVal.boolv true)
      , ("showTabsOpened", SVal.boolv true), ("showDaysUsed", SVal.boolv true)
      , ("showTrackersBlocked", SVal.boolv true) ]) ]

/-- `SettingsManager.loadSettings` (part_001 lines 75-84): starting from
the constructor defaults, a stored `newTabSettings` document is merged in
with a single top-level spread; an absent document leaves the defaults. -/
def loadSettings (stored : Option JsObj) : JsObj :=
  match stored with
  | none => defaultSettings
  | some doc => jsSpread defaultSettings doc

theorem lookup_append_of_some {l1 l2 : JsObj} {k : String} {v : SVal}
    (h : l1.lookup k = some v) : (l1 ++ l2).lookup k = some v := by
  induction l1 with
  | nil => simp [List.lookup] at h
  | cons p rest ih =>
    obtain ⟨a, b⟩ := p
    by_cases hk : k = a
    · have hb : (k == a) = true := by simpa using hk
      simp only [List.cons_append, List.lookup, hb] at h ⊢
      exact h
    · have hb : (k == a) = false := by simpa using hk
      simp only [List.cons_append, List.lookup, hb] at h ⊢
      exact ih h

theorem lookup_append_of_none {l1 : JsObj} {k : String} (l2 : JsObj)
    (h : l1.lookup k = none) : (l1 ++ l2).lookup k = l2.lookup k := by
  induction l1 with
  | nil => simp
  | cons p rest ih =>
    obtain ⟨a, b⟩ := p
    by_cases hk : k = a
    · have hb : (k == a) = true := by simpa using hk
      simp only [List.lookup, hb] at h
      exact absurd h (by simp)
    · have hb : (k == a) = false := by simpa using hk
      simp only [List.cons_append, List.lookup, hb] at h ⊢
      exact ih h

/-- C5: loading a stored settings document that lacks some of the four
top-level sections resolves every missing section to its hardcoded
default, while every section present in the stored document fully replaces
the default (it is preserved verbatim, with no deep merge). -/
theorem load_merges_sections_shallowly :
    ∀ stored : JsObj,
      (∀ k : String, k ∈ ["clock", "apps", "background", "stats"] →
        stored.lookup k = none →
        (loadSettings (some stored)).lookup k = defaultSettings.lookup k) ∧
      (∀ (k : String) (v : SVal), stored.lookup k = some v →
        (loadSettings (some stored)).lookup k = some v) := by
  intro stored
  constructor
  · intro k _ hnone
    exact lookup_append_of_none defaultSettings hnone
  · intro k v hsome
    exact lookup_append_of_some hsome

theorem load_merges_sections_shallowly_witness :
    (("clock" : String) ∈ ["clock", "apps", "background", "stats"] ∧
      ([("apps", SVal.boolv true)] : JsObj).lookup "clock" = none ∧
      ([("apps", SVal.boolv true)] : JsObj).lookup "apps" = some (SVal.boolv true)) ∧
    (loadSettings (some [("apps", SVal.boolv true)])).lookup "clock" =
      defaultSettings.lookup "clock" ∧
    (loadSettings (some [("apps", SVal.boolv true)])).lookup "apps" =
      some (SVal.boolv true) :=
  ⟨⟨by simp, rfl, rfl⟩,
    (load_merges_sections_shallowly [("apps", SVal.boolv true)]).1 "clock" (by simp) rfl,
    (load_merges_sections_shallowly [("apps", SVal.boolv true)]).2 "apps"
      (SVal.boolv true) rfl⟩

/-- The four top-level properties `SettingsManager.validateSettings`
requires (part_001 line 405). -/
def requiredProps : List String := ["clock", "apps", "background", "stats"]

/-- JavaScript truthiness of a property read: an absent property
(`undefined`, here `none`) is falsy, as are `false`, `0` and `""`. -/
def truthy : Option SVal → Bool
  | none => false
  | some (SVal.str s) => !(s == "")
  | some (SVal.boolv b) => b
  | some (SVal.num q) => !(q == 0)
  | some (SVal.obj _) => true
  | some (SVal.arr _) => true

/-- `SettingsManager.validateSettings` (part_001 lines 403-411): throws
`Missing required property` unless all four required top-level properties
are present and truthy.  `true` means validation passed. -/
def validateSettings (settings : JsObj) : Bool :=
  requiredProps.all (fun prop => truthy (settings.lookup prop))

/-- The state touched by an import: the in-memory `this.settings` and the
persisted `newTabSettings` document. -/
structure ImportState where
  settings : JsObj
  persisted : Option JsObj

/-- `SettingsManager.importSettings` (part_001 lines 374-398) after a
successful JSON parse: validation throws into the `catch` block, which
shows an error status and leaves everything untouched; on success the
imported document is spread over the current settings and saved.  Returns
the new state together with the status kind shown to the user. -/
def importSettings (st : ImportState) (imported : JsObj) : ImportState × String :=
  if validateSettings imported then
    let merged := jsSpread st.settings imported
    ({ settings := merged, persisted := some merged }, "success")
  else
    (st, "error")

/-- C6: importing a settings document that is missing one of the four
required top-level keys fails validation, surfaces an error status, and
leaves both the in-memory settings and the persisted document unchanged —
no partial mutation is applied. -/
theorem import_missing_section_aborts :
    ∀ (st : ImportState) (imported : JsObj) (k : String),
      k ∈ requiredProps → imported.lookup k = none →
      (importSettings st imported).1 = st ∧ (importSettings st imported).2 = "error" := by
  intro st imported k hk hnone
  have hval : validateSettings imported = false := by
    rw [show (false : Bool) = decide False by rfl]
    rw [validateSettings]
    apply Bool.eq_false_iff.mpr
    intro hall
    rw [List.all_eq_true] at hall
    have := hall k hk
    rw [hnone] at this
    simp [truthy] at this
  simp [importSettings, hval]

theorem import_missing_section_aborts_witness :
    (("apps" : String) ∈ requiredProps ∧
      ([("clock", SVal.obj []), ("background", SVal.obj []), ("stats", SVal.obj [])] :
        JsObj).lookup "apps" = none) ∧
    (importSettings ⟨defaultSettings, some defaultSettings⟩
        [("clock", SVal.obj []), ("background", SVal.obj []), ("stats", SVal.obj [])]).1 =
      ⟨defaultSettings, some defaultSettings⟩ ∧
    (importSettings ⟨defaultSettings, some defaultSettings⟩
        [("clock", SVal.obj []), ("background", SVal.obj []), ("stats", SVal.obj [])]).2 =
      "error" :=
  ⟨⟨by simp [requiredProps], rfl⟩,
    import_missing_section_aborts ⟨defaultSettings, some defaultSettings⟩
      [("clock", SVal.obj []), ("background", SVal.obj []), ("stats", SVal.obj [])]
      "apps" (by simp [requiredProps]) rfl⟩

/-! ## Change notifications on save (part_001 `dispatchSettingsEvents` and
the feature modules' `setupEventListeners`)

DOM `CustomEvent` dispatch on `document` is synchronous: a module's
handler runs exactly when an event with the module's subscribed type name
is dispatched. -/

/-- The event types dispatched by `SettingsManager.dispatchSettingsEvents`
(part_001 lines 435-455) on every successful save, in dispatch order: one
per settings section. -/
def dispatchedTopics : List String :=
  ["clockSettingsChanged", "appSettingsChanged", "backgroundSettingsChanged",
   "statsSettingsChanged"]

/-- Event type `ClockManager.setupEventListeners` subscribes to (clock.js
line 167). -/
def clockSubscribedTopic : String := "clockSettingsChanged"

/-- Event type `PinnedAppsManager.setupEventListeners` subscribes to
(pinned-apps.js line 413). -/
def pinnedAppsSubscribedTopic : String := "appsSettingsChanged"

/-- Event type `BackgroundEngine.setupEventListeners` subscribes to
(background.js line 309). -/
def backgroundSubscribedTopic : String := "backgroundSettingsChanged"

/-- Event type `StatsTracker.setupEventListeners` subscribes to (part_000
line 145). -/
def statsSubscribedTopic : String := "statsSettingsChanged"

/-- A module's change handler runs on save iff its subscribed event type
is among the dispatched ones. -/
def receivesNotification (subscribed : String) : Bool :=
  dispatchedTopics.contains subscribed

/-- C1 evaluation: the save path dispatches exactly one notification per
section and the clock, background and stats modules receive theirs, but
the PinnedApps module never receives the apps-section notification — the
settings manager dispatches `appSettingsChanged` while PinnedApps listens
for `appsSettingsChanged`. -/
theorem pinnedApps_misses_save_notification :
    dispatchedTopics.length = 4 ∧
    receivesNotification clockSubscribedTopic = true ∧
    receivesNotification backgroundSubscribedTopic = true ∧
    receivesNotification statsSubscribedTopic = true ∧
    receivesNotification pinnedAppsSubscribedTopic = false := by
  decide

/-! ## Stats tracker (part_000: `StatsTracker`) -/

/-- One entry of the session log (part_000 lines 181-185). -/
structure SessionEntry where
  date : String
  duration : Nat
  tabsOpened : Nat
deriving DecidableEq, Repr

/-- `this.stats` of `StatsTracker` (part_000 lines 8-16).  Calendar dates
are modelled by their `toDateString` strings. -/
structure StatsData where
  totalUsageTime : Nat
  tabsOpenedToday : Nat
  totalTabsOpened : Nat
  firstUseDate : Option String
  lastActiveDate : Option String
  trackersBlocked : Nat
  sessions : List SessionEntry
deriving DecidableEq, Repr

/-- `StatsTracker.checkNewDay` (part_000 lines 74-84), run from
`loadStats` during initialisation: when the stored last-active date string
(`null` when never set) differs from today's date string, the daily tab
counter is reset to 0 and the last-active date updated. -/
def checkNewDay (today : String) (s : StatsData) : StatsData :=
  let lastActive := s.lastActiveDate
  if lastActive ≠ some today then
    { s with tabsOpenedToday := 0, lastActiveDate := some today }
  else s

/-- `StatsTracker.incrementTabCount` (part_000 lines 169-174): the exact
code run by the `chrome.tabs.onCreated` listener on every tab-creation
event. -/
def incrementTabCount (s : StatsData) : StatsData :=
  { s with
    tabsOpenedToday := s.tabsOpenedToday + 1
    totalTabsOpened := s.totalTabsOpened + 1 }

/-- A stored stats document whose last-active date lies in the past. -/
def staleStats : StatsData :=
  { totalUsageTime := 3600, tabsOpenedToday := 5, totalTabsOpened := 100
  , firstUseDate := some "Mon Jan 01 2024", lastActiveDate := some "Mon Jan 01 2024"
  , trackersBlocked := 0, sessions := [] }

/-- C7 counterexample: a tab-creation event whose current date string
differs from the stored last-active date string does not reset the daily
counter — the `onCreated` handler runs `incrementTabCount`, which never
consults the date, so the counter goes from 5 to 6 instead of to 1. -/
theorem tab_event_does_not_reset_daily_counter :
    staleStats.lastActiveDate ≠ some "Tue Jan 02 2024" ∧
    (incrementTabCount staleStats).tabsOpenedToday = 6 ∧
    (incrementTabCount staleStats).tabsOpenedToday ≠ 1 := by
  decide

/-- C7 amended: the daily reset happens during stats loading
(`checkNewDay`), not in the tab-creation handler: when the tracker loads
with a stored last-active date string differing from today's, the daily
counter resets to 0 and a following tab-creation event brings it to 1;
when the date strings are equal a tab-creation event continues
incrementing from the prior value; and every tab-creation event increments
the lifetime counter. -/
theorem daily_counter_reset_on_load :
    ∀ (s : StatsData) (today : String),
      (s.lastActiveDate ≠ some today →
        (checkNewDay today s).tabsOpenedToday = 0 ∧
        (incrementTabCount (checkNewDay today s)).tabsOpenedToday = 1) ∧
      (s.lastActiveDate = some today →
        (incrementTabCount s).tabsOpenedToday = s.tabsOpenedToday + 1) ∧
      (incrementTabCount s).totalTabsOpened = s.totalTabsOpened + 1 := by
  intro s today
  refine ⟨fun hne => ?_, fun _ => rfl, rfl⟩
  simp [checkNewDay, hne, incrementTabCount]

theorem daily_counter_reset_on_load_witness :
    staleStats.lastActiveDate ≠ some "Tue Jan 02 2024" ∧
    (checkNewDay "Tue Jan 02 2024" staleStats).tabsOpenedToday = 0 ∧
    (incrementTabCount (checkNewDay "Tue Jan 02 2024" staleStats)).tabsOpenedToday = 1 :=
  ⟨by decide,
    (daily_counter_reset_on_load staleStats "Tue Jan 02 2024").1 (by decide)⟩

/-! ## getSettings and object identity

`getSettings` in every module is `return { ...this.settings }`.  To talk
about external mutation of the returned object we model JavaScript's
reference semantics explicitly: objects live on a heap, object-valued
fields hold references, and the spread copies one object's top-level
field slots into a freshly allocated object. -/

/-- A heap reference (object identity). -/
abbrev Ref := Nat

/-- A primitive or reference value stored in an object field. -/
inductive JVal where
  | str (s : String)
  | num (n : Int)
  | boolv (b : Bool)
  | ref (r : Ref)
deriving DecidableEq, Repr

/-- An object's own slots. -/
abbrev HObj := List (String × JVal)

/-- A heap: objects addressed by `Ref`. -/
structure Heap where
  objs : List HObj
deriving DecidableEq, Repr

/-- The object at `r` (a dangling reference reads as an empty object). -/
def Heap.getObj (h : Heap) (r : Ref) : HObj :=
  h.objs.getD r []

/-- Property read `o.f`: `none` models `undefined`. -/
def Heap.readField (h : Heap) (r : Ref) (f : String) : Option JVal :=
  (h.getObj r).lookup f

/-- Property write `o.f = v`: assignment prepends the binding, and reads
resolve to the first binding for a key. -/
def Heap.setField (h : Heap) (r : Ref) (f : String) (v : JVal) : Heap :=
  ⟨h.objs.set r ((f, v) :: h.getObj r)⟩

/-- Allocate a fresh object. -/
def Heap.alloc (h : Heap) (o : HObj) : Ref × Heap :=
  (h.objs.length, ⟨h.objs ++ [o]⟩)

/-- Two-level read `o.f.g`, e.g. `settings.uploadSettings.cycle`. -/
def Heap.readPath2 (h : Heap) (r : Ref) (f g : String) : Option JVal :=
  match h.readField r f with
  | some (JVal.ref r1) => h.readField r1 g
  | _ => none

/-- `getSettings` as written in `BackgroundEngine`, `SettingsManager`,
`ClockManager` and `PinnedAppsManager`: `return { ...this.settings }` — a
spread into a fresh object that copies the top-level field slots as-is,
including references to nested objects. -/
def getSettings (h : Heap) (settingsRef : Ref) : Ref × Heap :=
  h.alloc (h.getObj settingsRef)

/-- The in-memory `this.settings` object graph of a `BackgroundEngine`
instance (background.js lines 9-32): object 6 is the settings root; its
composite sections are separate heap objects, with the uploaded-image
array itself an object (index 0, element slots keyed by index). -/
def engineHeap : Heap :=
  ⟨[ -- 0: uploadSettings.images (array with one data URL)
     [("0", JVal.str "data:image/png;base64,abc"), ("length", JVal.num 1)]
   , -- 1: uploadSettings
     [("images", JVal.ref 0), ("cycle", JVal.str "refresh")
      , ("order", JVal.str "random"), ("currentIndex", JVal.num 0)]
   , -- 2: colorSettings
     [("color", JVal.str "#1a1a1a")]
   , -- 3: gradientSettings
     [("type", JVal.str "linear"), ("color1", JVal.str "#667eea")
      , ("color2", JVal.str "#764ba2")]
   , -- 4: apiSettings.images (empty array)
     [("length", JVal.num 0)]
   , -- 5: apiSettings
     [("source", JVal.str "unsplash"), ("apiKey", JVal.str "")
      , ("query", JVal.str "nature"), ("images", JVal.ref 4)
      , ("currentIndex", JVal.num 0)]
   , -- 6: this.settings
     [("backgroundType", JVal.str "upload"), ("uploadSettings", JVal.ref 1)
      , ("colorSettings", JVal.ref 2), ("gradientSettings", JVal.ref 3)
      , ("apiSettings", JVal.ref 5)] ]⟩

/-- The root reference of `this.settings` in `engineHeap`. -/
def engineSettingsRef : Ref := 6

/-- The heap after a caller obtains `getSettings()` and mutates the
nested composite `copy.uploadSettings.cycle = "newtab"` through the
returned object. -/
def engineHeapAfterMutation : Heap :=
  let c := getSettings engineHeap engineSettingsRef
  match c.2.readField c.1 "uploadSettings" with
  | some (JVal.ref r1) => c.2.setField r1 "cycle" (JVal.str "newtab")
  | _ => c.2

theorem listGetD_set_ne {α : Type} (d : α) :
    ∀ (l : List α) (i j : Nat) (a : α), i ≠ j → (l.set i a).getD j d = l.getD j d := by
  intro l
  induction l with
  | nil => intro i j a _; rfl
  | cons x rest ih =>
    intro i j a hij
    cases i with
    | zero =>
      cases j with
      | zero => exact absurd rfl hij
      | succ j => simp [List.set, List.getD]
    | succ i =>
      cases j with
      | zero => simp [List.set, List.getD]
      | succ j =>
        have := ih i j a (fun hc => hij (by rw [hc]))
        simpa [List.set, List.getD] using this

theorem listGetD_append_self {α : Type} (d : α) (l : List α) (o : α) :
    (l ++ [o]).getD l.length d = o := by
  induction l with
  | nil => rfl
  | cons x rest ih => simp [List.getD]

/-- C3 counterexample: the copy returned by `getSettings` is shallow, so
mutating the nested composite field `uploadSettings.cycle` through the
returned object changes the module's in-memory settings: read through the
module's own settings reference, the value flips from `refresh` to
`newtab`. -/
theorem getSettings_shallow_copy_leaks :
    engineHeap.readPath2 engineSettingsRef "uploadSettings" "cycle" =
      some (JVal.str "refresh") ∧
    engineHeapAfterMutation.readPath2 engineSettingsRef "uploadSettings" "cycle" =
      some (JVal.str "newtab") := by
  decide

/-- C3 amended: `getSettings` returns a fresh top-level object — the copy
initially reads equal to the live settings on every field, and assigning
any top-level field of the copy leaves every read through the module's own
settings reference unchanged — but the copy is shallow: nested composite
fields are shared by reference, so mutating them through the copy does
mutate the module's in-memory settings. -/
theorem getSettings_top_level_defensive :
    ∀ (h : Heap) (r : Ref), r < h.objs.length →
      ∀ (f : String) (v : JVal) (g : String),
        ((getSettings h r).2.setField (getSettings h r).1 f v).readField r g =
          h.readField r g ∧
        (getSettings h r).2.readField (getSettings h r).1 g = h.readField r g := by
  intro h r hr f v g
  have hne : h.objs.length ≠ r := (Nat.ne_of_lt hr).symm
  simp only [getSettings, Heap.alloc, Heap.setField, Heap.readField, Heap.getObj]
  constructor
  · rw [listGetD_set_ne _ _ _ _ _ hne, List.getD_append _ _ _ _ hr]
  · rw [listGetD_append_self]

theorem getSettings_top_level_defensive_witness :
    engineSettingsRef < engineHeap.objs.length ∧
    (((getSettings engineHeap engineSettingsRef).2.setField
        (getSettings engineHeap engineSettingsRef).1 "backgroundType"
        (JVal.str "color")).readField engineSettingsRef "backgroundType" =
      engineHeap.readField engineSettingsRef "backgroundType" ∧
    (getSettings engineHeap engineSettingsRef).2.readField
        (getSettings engineHeap engineSettingsRef).1 "backgroundType" =
      engineHeap.readField engineSettingsRef "backgroundType") :=
  ⟨by decide,
    getSettings_top_level_defensive engineHeap engineSettingsRef (by decide)
      "backgroundType" (JVal.str "color") "backgroundType"⟩

end NewTab
